import Mathlib

/-!
Shallow embedding of the aws-cdk physical-name lifecycle (`Resource` in
core/lib/resource.ts, given as src/unnamed/part_001) and of the RDS private
utilities (src/packages/@aws-cdk/aws-rds/lib/private/util.ts), together with
theorems checking the specification claims about them.

Collaborators of `Resource` that are code of this repository but not under
src/ (the token registry, `Stack.environment`, `Stack.formatArn`,
`generatePhysicalName`, `PhysicalName.GENERATE_IF_NEEDED`) are modelled from
the spec; each such definition carries a doc comment saying so.
-/

deriving instance DecidableEq for Except

namespace AwsCdk

/-- Modelled from the spec: the marker prefix of the token encoding. The token
registry (not under src/) encodes deferred values as strings carrying this
marker, guaranteed not to collide with user content. -/
def tokenMarkerPrefix : String := "$\x7bToken["

/-- Scan of a character list for the token marker as an infix. -/
def containsTokenMarker : List Char → Bool
  | [] => tokenMarkerPrefix.data.isPrefixOf []
  | c :: cs => tokenMarkerPrefix.data.isPrefixOf (c :: cs) || containsTokenMarker cs

/-- Modelled from the spec: `Token.isUnresolved` (token registry, not under
src/) detects whether a string still contains an encoded token. -/
def Token.isUnresolved (s : String) : Bool :=
  containsTokenMarker s.data

/-- Modelled from the spec: `PhysicalName.GENERATE_IF_NEEDED`, the
generate-if-needed marker (minted by private/physical-name-generator, not
under src/). In the source it is itself an encoded token string. -/
def generateIfNeededMarker : String := "$\x7bToken[GeneratedWhenNeeded]\x7d"

/-- Modelled from the spec: `isGeneratedWhenNeededMarker` (from
private/physical-name-generator, not under src/) recognizes the marker. -/
def isGeneratedWhenNeededMarker (s : String) : Bool :=
  s == generateIfNeededMarker

/-- Modelled from the spec: `generatePhysicalName` (from
private/physical-name-generator, not under src/) deterministically derives a
concrete name from the construct path of the resource (a path-encoding
algorithm). -/
def generatePhysicalName (nodePath : String) : String :=
  "gen-" ++ nodePath

/-- A stack: the owning scope of a resource, carrying the deployment account
and region (either of which may be an encoded token). -/
structure Stack where
  account : String
  region : String
deriving DecidableEq

/-- Modelled from the spec: `Stack.environment` (stack.ts, not under src/)
renders the deployment environment of the stack as one string, normalizing
unresolved account/region tokens to canonical markers, so that string
equality on it is a token-aware comparison of environments (two
differently-encoded tokens standing for the current account compare equal). -/
def Stack.environment (s : Stack) : String :=
  (if Token.isUnresolved s.account then "unknown-account" else s.account)
    ++ "/" ++
  (if Token.isUnresolved s.region then "unknown-region" else s.region)

/-- Modelled from the spec: the components of an ARN (arn.ts, not under
src/). Callers of `getResourceArnAttribute` reference the physical name of the
resource in `resourceName`. -/
structure ArnComponents where
  service : String
  resource : String
  resourceName : String
deriving DecidableEq

/-- Modelled from the spec: `Stack.formatArn` (stack.ts, not under src/)
composes an ARN from the environment components of the stack (account, region)
and the given ARN components. -/
def Stack.formatArn (s : Stack) (c : ArnComponents) : String :=
  "arn:aws:" ++ c.service ++ ":" ++ s.region ++ ":" ++ s.account ++ ":" ++
    c.resource ++ "/" ++ c.resourceName

/-- The environment a resource lives in (`ResourceEnvironment`). -/
structure ResourceEnvironment where
  account : String
  region : String
deriving DecidableEq

/-- Construction properties for `Resource` (`ResourceProps`). -/
structure ResourceProps where
  physicalName : Option String := none
  account : Option String := none
  region : Option String := none
deriving DecidableEq

/-- The value held by the protected readonly `physicalName` field of a
`Resource`: either the string token minted by
`Lazy.stringValue (produce: () => this._physicalName)` (whose producer reads
the private mutable `_physicalName` field at resolution time), or a plain
string, or the string token `Token.asString(undefined)`. -/
inductive PhysicalNameValue where
  | lazyOwnName
  | plain (s : String)
  | undefinedToken
deriving DecidableEq

/-- JavaScript truthiness of an optional string: `undefined` and the empty
string are falsy. -/
def jsTruthy : Option String → Bool
  | none => false
  | some s => s != ""

/-- The state of a `Resource` construct: its owning stack, construct path,
environment snapshot, the protected `physicalName` field, and the private
mutable fields `_physicalName` and `_allowCrossEnvironment`. -/
structure Resource where
  stack : Stack
  nodePath : String
  env : ResourceEnvironment
  physicalName : PhysicalNameValue
  _physicalName : Option String
  _allowCrossEnvironment : Bool
deriving DecidableEq

/-- The `Resource` constructor (part_001 lines 111-142). `stack` stands for
`Stack.of(this)` and `nodePath` for `this.node.path`. -/
def Resource.construct (stack : Stack) (nodePath : String)
    (props : ResourceProps) : Resource :=
  let env : ResourceEnvironment :=
    { account := props.account.getD stack.account
      region := props.region.getD stack.region }
  if jsTruthy props.physicalName
      && isGeneratedWhenNeededMarker (props.physicalName.getD "") then
    { stack := stack, nodePath := nodePath, env := env
      _physicalName := none
      _allowCrossEnvironment := true
      physicalName := PhysicalNameValue.lazyOwnName }
  else if jsTruthy props.physicalName
      && !(Token.isUnresolved (props.physicalName.getD "")) then
    { stack := stack, nodePath := nodePath, env := env
      _physicalName := props.physicalName
      _allowCrossEnvironment := true
      physicalName := PhysicalNameValue.plain (props.physicalName.getD "") }
  else
    { stack := stack, nodePath := nodePath, env := env
      _physicalName := props.physicalName
      _allowCrossEnvironment := false
      physicalName :=
        match props.physicalName with
        | none => PhysicalNameValue.undefinedToken
        | some s => PhysicalNameValue.plain s }

/-- The error message thrown by `_enableCrossEnvironment` (part_001 lines
155-156). -/
def crossEnvErrorMessage (path : String) : String :=
  "Cannot use resource \x27" ++ path ++ "\x27 in a cross-environment fashion, "
    ++ "the resource\x27s physical name must be explicit set or use "
    ++ "\x60PhysicalName.GENERATE_IF_NEEDED\x60"

/-- `Resource._enableCrossEnvironment` (part_001 lines 152-162). A thrown
error is an `Except.error`; the second component is the resource state after
the call (unchanged when the error is thrown, since the throw happens before
any mutation). -/
def Resource._enableCrossEnvironment (r : Resource) :
    Except String Unit × Resource :=
  if !r._allowCrossEnvironment then
    (Except.error (crossEnvErrorMessage r.nodePath), r)
  else if !(jsTruthy r._physicalName) then
    (Except.ok (), { r with _physicalName := some (generatePhysicalName r.nodePath) })
  else
    (Except.ok (), r)

/-- The producer of the Lazy token returned by `getResourceNameAttribute`
(part_001 lines 180-193), applied to a resolution context whose scope
resolves via `Stack.of` to `consumingStack`. -/
def Resource.getResourceNameAttributeProduce (r : Resource) (nameAttr : String)
    (consumingStack : Stack) : Except String PhysicalNameValue × Resource :=
  if r.stack.environment ≠ consumingStack.environment then
    let step := r._enableCrossEnvironment
    (step.1.map (fun _ => step.2.physicalName), step.2)
  else
    (Except.ok (PhysicalNameValue.plain nameAttr), r)

/-- The resolver of the token returned by `getResourceArnAttribute`
(part_001 lines 213-225), applied to a resolution context whose scope
resolves via `Stack.of` to `consumingStack`. -/
def Resource.getResourceArnAttributeResolve (r : Resource) (arnAttr : String)
    (c : ArnComponents) (consumingStack : Stack) :
    Except String String × Resource :=
  if r.stack.environment ≠ consumingStack.environment then
    let step := r._enableCrossEnvironment
    (step.1.map (fun _ => step.2.stack.formatArn c), step.2)
  else
    (Except.ok arnAttr, r)

/-- Recursive resolution of a `PhysicalNameValue` string token in the state
of resource `r`: the producer of the lazy token returns the current
`_physicalName`, a plain string resolves to itself, and
`Token.asString(undefined)` resolves to `undefined`. -/
def Resource.resolvePhysicalNameValue (r : Resource) :
    PhysicalNameValue → Option String
  | PhysicalNameValue.lazyOwnName => r._physicalName
  | PhysicalNameValue.plain s => some s
  | PhysicalNameValue.undefinedToken => none

/-- Full resolution of the name-attribute token at a consuming stack: invoke
the producer, then recursively resolve the value it returned (per the spec, the
resolver recursively resolves the result of a producer). -/
def Resource.resolveNameAttribute (r : Resource) (nameAttr : String)
    (consumingStack : Stack) : Except String (Option String) × Resource :=
  let step := r.getResourceNameAttributeProduce nameAttr consumingStack
  (step.1.map (fun v => step.2.resolvePhysicalNameValue v), step.2)

/-- An IAM role as seen by `setupS3ImportExport`: either supplied by the
caller in the props, or created by the function under a scope id. -/
inductive Role where
  | supplied (name : String)
  | created (scopeId : String)
deriving DecidableEq

/-- `DatabaseS3ImportExportProps` (util.ts lines 7-12). Buckets are
identified by name; only their presence matters here. -/
structure DatabaseS3ImportExportProps where
  s3ImportRole : Option Role := none
  s3ImportBuckets : Option (List String) := none
  s3ExportRole : Option Role := none
  s3ExportBuckets : Option (List String) := none
deriving DecidableEq

/-- JavaScript truthiness of `buckets && buckets.length > 0`. -/
def jsTruthyBucketList : Option (List String) → Bool
  | none => false
  | some bs => bs.length > 0

/-- `setupS3ImportExport` (util.ts lines 22-57). Each block either throws or
yields the updated role variable; grants are side effects on the buckets and
do not affect the returned roles. -/
def setupS3ImportExport (props : DatabaseS3ImportExportProps)
    (combineRoles : Bool) : Except String (Option Role × Option Role) :=
  (if jsTruthyBucketList props.s3ImportBuckets then
    if props.s3ImportRole.isSome then
      Except.error "Only one of s3ImportRole or s3ImportBuckets must be specified, not both."
    else
      Except.ok (if combineRoles && props.s3ExportRole.isSome then props.s3ExportRole
                 else some (Role.created "S3ImportRole"))
   else Except.ok props.s3ImportRole).bind fun s3ImportRole =>
  (if jsTruthyBucketList props.s3ExportBuckets then
    if props.s3ExportRole.isSome then
      Except.error "Only one of s3ExportRole or s3ExportBuckets must be specified, not both."
    else
      Except.ok (if combineRoles && s3ImportRole.isSome then s3ImportRole
                 else some (Role.created "S3ExportRole"))
   else Except.ok props.s3ExportRole).bind fun s3ExportRole =>
  Except.ok (s3ImportRole, s3ExportRole)

/-- `RemovalPolicy` from aws-cdk core (not under src/; only the RETAIN
member is compared against in util.ts). -/
inductive RemovalPolicy where
  | destroy
  | retain
  | snapshot
deriving DecidableEq

/-- `defaultDeletionProtection` (util.ts lines 78-82). -/
def defaultDeletionProtection (deletionProtection : Option Bool)
    (removalPolicy : Option RemovalPolicy) : Option Bool :=
  match deletionProtection with
  | some b => some b
  | none =>
    if removalPolicy = some RemovalPolicy.retain then some true else none

/-- A concrete sample stack in account 111111111111, region us-east-1. -/
def stackA : Stack := { account := "111111111111", region := "us-east-1" }

/-- A concrete sample stack in account 222222222222, region eu-west-1. -/
def stackB : Stack := { account := "222222222222", region := "eu-west-1" }

/-- A sample resource in `stackA` with an explicit concrete physical name. -/
def resExplicit : Resource :=
  Resource.construct stackA "Demo/Res" { physicalName := some "fixed" }

/-- A sample resource in `stackA` built with the generate-if-needed marker. -/
def resMarker : Resource :=
  Resource.construct stackA "Demo/Res" { physicalName := some generateIfNeededMarker }

/-- A sample resource in `stackA` built with no physical name. -/
def resUnset : Resource :=
  Resource.construct stackA "Demo/Res" {}

/-- A sample resource in `stackA` built with the empty string as its
physical name. -/
def resEmpty : Resource :=
  Resource.construct stackA "Demo/Res" { physicalName := some "" }

theorem jsTruthy_marker : jsTruthy (some generateIfNeededMarker) = true := by decide

theorem marker_is_marker :
    isGeneratedWhenNeededMarker generateIfNeededMarker = true := by decide

theorem marker_unresolved : Token.isUnresolved generateIfNeededMarker = true := by decide

theorem marker_not_resolved {s : String} (hres : Token.isUnresolved s = false) :
    isGeneratedWhenNeededMarker s = false := by
  unfold isGeneratedWhenNeededMarker
  rw [beq_eq_false_iff_ne]
  intro hs
  subst hs
  exact absurd hres (by decide)

theorem jsTruthy_some_of_ne {s : String} (hne : s ≠ "") :
    jsTruthy (some s) = true := by
  unfold jsTruthy
  rwa [bne_iff_ne]

theorem generatePhysicalName_ne_empty (p : String) : generatePhysicalName p ≠ "" := by
  unfold generatePhysicalName
  intro h
  have hl := congrArg String.length h
  rw [String.length_append] at hl
  have h4 : ("gen-" : String).length = 4 := by decide
  have h0 : ("" : String).length = 0 := by decide
  rw [h4, h0] at hl
  omega

theorem jsTruthy_genName (p : String) :
    jsTruthy (some (generatePhysicalName p)) = true :=
  jsTruthy_some_of_ne (generatePhysicalName_ne_empty p)

theorem construct_marker_eq (stack : Stack) (path : String) (props : ResourceProps)
    (hp : props.physicalName = some generateIfNeededMarker) :
    Resource.construct stack path props =
      { stack := stack, nodePath := path,
        env := { account := props.account.getD stack.account,
                 region := props.region.getD stack.region },
        physicalName := PhysicalNameValue.lazyOwnName,
        _physicalName := none, _allowCrossEnvironment := true } := by
  simp [Resource.construct, hp, jsTruthy_marker, marker_is_marker]

theorem construct_concrete_eq (stack : Stack) (path : String) (props : ResourceProps)
    (s : String) (hp : props.physicalName = some s) (hne : s ≠ "")
    (hres : Token.isUnresolved s = false) :
    Resource.construct stack path props =
      { stack := stack, nodePath := path,
        env := { account := props.account.getD stack.account,
                 region := props.region.getD stack.region },
        physicalName := PhysicalNameValue.plain s,
        _physicalName := some s, _allowCrossEnvironment := true } := by
  simp [Resource.construct, hp, jsTruthy_some_of_ne hne, marker_not_resolved hres, hres]

theorem enable_error_eq (r : Resource) (h : r._allowCrossEnvironment = false) :
    r._enableCrossEnvironment = (Except.error (crossEnvErrorMessage r.nodePath), r) := by
  simp [Resource._enableCrossEnvironment, h]

theorem enable_noop_eq (r : Resource) (h : r._allowCrossEnvironment = true)
    (hp : jsTruthy r._physicalName = true) :
    r._enableCrossEnvironment = (Except.ok (), r) := by
  simp [Resource._enableCrossEnvironment, h, hp]

theorem enable_generate_eq (r : Resource) (h : r._allowCrossEnvironment = true)
    (hp : jsTruthy r._physicalName = false) :
    r._enableCrossEnvironment =
      (Except.ok (), { r with _physicalName := some (generatePhysicalName r.nodePath) }) := by
  simp [Resource._enableCrossEnvironment, h, hp]

theorem enable_fst_ok (r : Resource) (h : r._allowCrossEnvironment = true) :
    (r._enableCrossEnvironment).1 = Except.ok () := by
  cases hp : jsTruthy r._physicalName
  · rw [enable_generate_eq r h hp]
  · rw [enable_noop_eq r h hp]

theorem enable_frame (r : Resource) :
    (r._enableCrossEnvironment).2.stack = r.stack ∧
    (r._enableCrossEnvironment).2.nodePath = r.nodePath ∧
    (r._enableCrossEnvironment).2.env = r.env ∧
    (r._enableCrossEnvironment).2.physicalName = r.physicalName ∧
    (r._enableCrossEnvironment).2._allowCrossEnvironment = r._allowCrossEnvironment := by
  unfold Resource._enableCrossEnvironment
  split
  · exact ⟨rfl, rfl, rfl, rfl, rfl⟩
  · split
    · exact ⟨rfl, rfl, rfl, rfl, rfl⟩
    · exact ⟨rfl, rfl, rfl, rfl, rfl⟩

/-- C10: `defaultDeletionProtection` returns the given `deletionProtection`
value whenever it is defined; when it is undefined it returns `true` if
`removalPolicy` is `RemovalPolicy.RETAIN` and `undefined` otherwise. -/
theorem c10_defaultDeletionProtection_spec (b : Option Bool) (rp : Option RemovalPolicy) :
    (∀ v, b = some v → defaultDeletionProtection b rp = some v) ∧
    (b = none → rp = some RemovalPolicy.retain →
      defaultDeletionProtection b rp = some true) ∧
    (b = none → rp ≠ some RemovalPolicy.retain →
      defaultDeletionProtection b rp = none) := by
  refine ⟨?_, ?_, ?_⟩
  · intro v hv
    simp [defaultDeletionProtection, hv]
  · intro hb hr
    simp [defaultDeletionProtection, hb, hr]
  · intro hb hr
    simp [defaultDeletionProtection, hb, hr]

/-- Witness for C10: an explicit caller value is kept even under RETAIN, and
an undefined value with a non-RETAIN policy yields undefined. -/
theorem c10_witness :
    defaultDeletionProtection (some false) (some RemovalPolicy.retain) = some false ∧
    defaultDeletionProtection none (some RemovalPolicy.destroy) = none :=
  ⟨(c10_defaultDeletionProtection_spec (some false) (some RemovalPolicy.retain)).1
      false rfl,
   (c10_defaultDeletionProtection_spec none (some RemovalPolicy.destroy)).2.2
      rfl (by decide)⟩

/-- C9: `setupS3ImportExport` throws exactly when a non-empty import bucket
list is supplied together with an import role, or a non-empty export bucket
list together with an export role; with both bucket lists absent or empty it
returns the props roles unchanged; with `combineRoles` a role created or
supplied for one direction is reused for the other instead of creating a
second role. -/
theorem c9_setupS3ImportExport_spec (props : DatabaseS3ImportExportProps)
    (combineRoles : Bool) :
    ((∃ e, setupS3ImportExport props combineRoles = Except.error e) ↔
      (jsTruthyBucketList props.s3ImportBuckets = true ∧ props.s3ImportRole.isSome = true) ∨
      (jsTruthyBucketList props.s3ExportBuckets = true ∧ props.s3ExportRole.isSome = true)) ∧
    (jsTruthyBucketList props.s3ImportBuckets = false →
     jsTruthyBucketList props.s3ExportBuckets = false →
      setupS3ImportExport props combineRoles
        = Except.ok (props.s3ImportRole, props.s3ExportRole)) ∧
    (combineRoles = true → props.s3ImportRole = none → props.s3ExportRole = none →
     jsTruthyBucketList props.s3ImportBuckets = true →
     jsTruthyBucketList props.s3ExportBuckets = true →
      setupS3ImportExport props combineRoles
        = Except.ok (some (Role.created "S3ImportRole"), some (Role.created "S3ImportRole"))) ∧
    (∀ er, combineRoles = true → props.s3ImportRole = none → props.s3ExportRole = some er →
     jsTruthyBucketList props.s3ImportBuckets = true →
     jsTruthyBucketList props.s3ExportBuckets = false →
      setupS3ImportExport props combineRoles = Except.ok (some er, some er)) ∧
    (∀ ir, combineRoles = true → props.s3ImportRole = some ir → props.s3ExportRole = none →
     jsTruthyBucketList props.s3ImportBuckets = false →
     jsTruthyBucketList props.s3ExportBuckets = true →
      setupS3ImportExport props combineRoles = Except.ok (some ir, some ir)) := by
  refine ⟨?_, ?_, ?_, ?_, ?_⟩
  · rcases hir : props.s3ImportRole with _ | ir <;>
    rcases her : props.s3ExportRole with _ | er <;>
    cases hib : jsTruthyBucketList props.s3ImportBuckets <;>
    cases heb : jsTruthyBucketList props.s3ExportBuckets <;>
    simp [setupS3ImportExport, Except.bind, hir, her, hib, heb]
  · intro hib heb
    simp [setupS3ImportExport, Except.bind, hib, heb]
  · intro hc hir her hib heb
    simp [setupS3ImportExport, Except.bind, hc, hir, her, hib, heb]
  · intro er hc hir her hib heb
    simp [setupS3ImportExport, Except.bind, hc, hir, her, hib, heb]
  · intro ir hc hir her hib heb
    simp [setupS3ImportExport, Except.bind, hc, hir, her, hib, heb]

/-- Witness for C9: with `combineRoles`, non-empty import and export bucket
lists and no supplied roles, a single role is created and used for both
directions. -/
theorem c9_witness :
    setupS3ImportExport
        { s3ImportBuckets := some ["import-bucket"],
          s3ExportBuckets := some ["export-bucket"] } true
      = Except.ok (some (Role.created "S3ImportRole"), some (Role.created "S3ImportRole")) :=
  (c9_setupS3ImportExport_spec
      { s3ImportBuckets := some ["import-bucket"],
        s3ExportBuckets := some ["export-bucket"] } true).2.2.1
    rfl rfl rfl (by decide) (by decide)

/-- Counterexample to C1: a resource whose environment snapshot (`env`, with
an account override of 222222222222) differs from the environment of the
consuming scope (`stackA`, account 111111111111) under token-aware comparison
(both are concrete), yet resolving the name attribute returns the native
attribute reference and never triggers `enableCrossEnvironment`: the code
compares the environment of the owning stack, not the resource env
snapshot. -/
theorem c1_counterexample :
    (Resource.construct stackA "MyStack/MyResource"
        { physicalName := some "my-name", account := some "222222222222" }).env
      ≠ { account := stackA.account, region := stackA.region } ∧
    (Resource.construct stackA "MyStack/MyResource"
        { physicalName := some "my-name",
          account := some "222222222222" }).getResourceNameAttributeProduce
        "nativeAttr" stackA
      = (Except.ok (PhysicalNameValue.plain "nativeAttr"),
         Resource.construct stackA "MyStack/MyResource"
           { physicalName := some "my-name", account := some "222222222222" }) := by
  decide

/-- C1 (amended): resolving the name or ARN attribute token returns the
native attribute reference exactly when the environment of the consuming
stack equals the environment of the stack the resource is defined in (the
token-aware `Stack.environment` comparison; not the resource env snapshot);
otherwise it triggers `_enableCrossEnvironment` and, when that allows it,
returns the physicalName token of the resource, resp. the ARN composed by
the owning stack from its environment components and the given ARN
components. -/
theorem c1_resolution_decision (r : Resource) (nameAttr arnAttr : String)
    (c : ArnComponents) (cs : Stack) :
    (r.stack.environment = cs.environment →
      r.getResourceNameAttributeProduce nameAttr cs
        = (Except.ok (PhysicalNameValue.plain nameAttr), r) ∧
      r.getResourceArnAttributeResolve arnAttr c cs = (Except.ok arnAttr, r)) ∧
    (r.stack.environment ≠ cs.environment → r._allowCrossEnvironment = true →
      r.getResourceNameAttributeProduce nameAttr cs
        = (Except.ok (r._enableCrossEnvironment).2.physicalName,
           (r._enableCrossEnvironment).2) ∧
      r.getResourceArnAttributeResolve arnAttr c cs
        = (Except.ok ((r._enableCrossEnvironment).2.stack.formatArn c),
           (r._enableCrossEnvironment).2)) := by
  constructor
  · intro h
    constructor
    · simp [Resource.getResourceNameAttributeProduce, h]
    · simp [Resource.getResourceArnAttributeResolve, h]
  · intro h hallow
    have h1 := enable_fst_ok r hallow
    constructor
    · simp [Resource.getResourceNameAttributeProduce, h, h1, Except.map]
    · simp [Resource.getResourceArnAttributeResolve, h, h1, Except.map]

/-- Witness for C1: a same-environment reference yields the native attribute,
and a cross-environment reference to an explicitly named resource yields its
physicalName token. -/
theorem c1_witness :
    resExplicit.getResourceNameAttributeProduce "nativeAttr" stackA
      = (Except.ok (PhysicalNameValue.plain "nativeAttr"), resExplicit) ∧
    resExplicit.getResourceNameAttributeProduce "nativeAttr" stackB
      = (Except.ok (resExplicit._enableCrossEnvironment).2.physicalName,
         (resExplicit._enableCrossEnvironment).2) :=
  ⟨((c1_resolution_decision resExplicit "nativeAttr" "arnAttr"
      ⟨"s3", "bucket", "fixed"⟩ stackA).1 (by decide)).1,
   ((c1_resolution_decision resExplicit "nativeAttr" "arnAttr"
      ⟨"s3", "bucket", "fixed"⟩ stackB).2 (by decide) (by decide)).1⟩

/-- C2: construction with the generate-if-needed marker puts the resource in
state Deferred-if-needed (no stored name, lazy physicalName token) with
cross-environment references allowed; an explicit concrete token-free name
puts it in state Explicit (name stored) with cross-environment references
allowed; no name, or a name containing unresolved tokens (other than the
marker, which the constructor tests first), leaves cross-environment
references not allowed. -/
theorem c2_construction_states (stack : Stack) (path : String) (props : ResourceProps) :
    (props.physicalName = some generateIfNeededMarker →
      (Resource.construct stack path props)._physicalName = none ∧
      (Resource.construct stack path props)._allowCrossEnvironment = true ∧
      (Resource.construct stack path props).physicalName
        = PhysicalNameValue.lazyOwnName) ∧
    (∀ s, props.physicalName = some s → s ≠ "" → Token.isUnresolved s = false →
      (Resource.construct stack path props)._physicalName = some s ∧
      (Resource.construct stack path props)._allowCrossEnvironment = true) ∧
    ((props.physicalName = none ∨
        (∃ s, props.physicalName = some s ∧ Token.isUnresolved s = true ∧
          isGeneratedWhenNeededMarker s = false)) →
      (Resource.construct stack path props)._physicalName = props.physicalName ∧
      (Resource.construct stack path props)._allowCrossEnvironment = false) := by
  refine ⟨?_, ?_, ?_⟩
  · intro hp
    rw [construct_marker_eq stack path props hp]
    exact ⟨rfl, rfl, rfl⟩
  · intro s hp hne hres
    rw [construct_concrete_eq stack path props s hp hne hres]
    exact ⟨rfl, rfl⟩
  · rintro (hp | ⟨s, hp, hres, hmark⟩)
    · constructor <;> simp [Resource.construct, hp, jsTruthy]
    · constructor <;> simp [Resource.construct, hp, hres, hmark, jsTruthy]

/-- Witness for C2: the marker construction yields the deferred state with
cross-environment references allowed. -/
theorem c2_witness :
    resMarker._physicalName = none ∧ resMarker._allowCrossEnvironment = true ∧
      resMarker.physicalName = PhysicalNameValue.lazyOwnName :=
  (c2_construction_states stackA "Demo/Res"
      { physicalName := some generateIfNeededMarker }).1 rfl

/-- C3: for a resource whose cross-environment allowance is false, calling
`_enableCrossEnvironment` directly, or resolving its name/ARN attribute from
a scope in a different environment, fails with the error naming the construct
path of the resource and instructing the caller to set an explicit name or
use the generate-marker, and returns the resource state unchanged. -/
theorem c3_unset_cross_env_error (r : Resource) (nameAttr arnAttr : String)
    (c : ArnComponents) (cs : Stack)
    (h : r._allowCrossEnvironment = false)
    (henv : r.stack.environment ≠ cs.environment) :
    r._enableCrossEnvironment = (Except.error (crossEnvErrorMessage r.nodePath), r) ∧
    r.getResourceNameAttributeProduce nameAttr cs
      = (Except.error (crossEnvErrorMessage r.nodePath), r) ∧
    r.getResourceArnAttributeResolve arnAttr c cs
      = (Except.error (crossEnvErrorMessage r.nodePath), r) ∧
    crossEnvErrorMessage r.nodePath
      = "Cannot use resource \x27" ++ r.nodePath ++ "\x27 in a cross-environment fashion, "
          ++ "the resource\x27s physical name must be explicit set or use "
          ++ "\x60PhysicalName.GENERATE_IF_NEEDED\x60" := by
  have he := enable_error_eq r h
  refine ⟨he, ?_, ?_, rfl⟩
  · simp [Resource.getResourceNameAttributeProduce, henv, he, Except.map]
  · simp [Resource.getResourceArnAttributeResolve, henv, he, Except.map]

/-- Witness for C3: the no-name sample resource fails both on a direct
`_enableCrossEnvironment` call and on a cross-environment name reference,
with its state unchanged. -/
theorem c3_witness :
    resUnset._enableCrossEnvironment
      = (Except.error (crossEnvErrorMessage "Demo/Res"), resUnset) ∧
    resUnset.getResourceNameAttributeProduce "nativeAttr" stackB
      = (Except.error (crossEnvErrorMessage "Demo/Res"), resUnset) :=
  ⟨(c3_unset_cross_env_error resUnset "nativeAttr" "arnAttr"
      ⟨"s3", "bucket", "n"⟩ stackB (by decide) (by decide)).1,
   (c3_unset_cross_env_error resUnset "nativeAttr" "arnAttr"
      ⟨"s3", "bucket", "n"⟩ stackB (by decide) (by decide)).2.1⟩

/-- C4: for a resource constructed with the generate-if-needed marker, the
first `_enableCrossEnvironment` call succeeds and deterministically stores
the name derived from the construct path (state Generated); calling it again
is a no-op returning the identical state, so the physical-name state mutates
at most once. -/
theorem c4_marker_generation_idempotent (stack : Stack) (path : String) :
    ∃ r1 : Resource,
      (Resource.construct stack path
          { physicalName := some generateIfNeededMarker })._enableCrossEnvironment
        = (Except.ok (), r1) ∧
      r1._physicalName = some (generatePhysicalName path) ∧
      r1._enableCrossEnvironment = (Except.ok (), r1) := by
  refine ⟨{ stack := stack, nodePath := path,
            env := { account := stack.account, region := stack.region },
            physicalName := PhysicalNameValue.lazyOwnName,
            _physicalName := some (generatePhysicalName path),
            _allowCrossEnvironment := true }, ?_, rfl, ?_⟩
  · rw [construct_marker_eq stack path { physicalName := some generateIfNeededMarker } rfl]
    simp [Resource._enableCrossEnvironment, jsTruthy]
  · exact enable_noop_eq _ rfl (jsTruthy_genName path)

/-- C5: resolving the same name-attribute token is context dependent, not
memoized: under a consuming stack in the same environment it resolves to the
native attribute, under a consuming stack in a different environment it
resolves to the physical name of the resource. -/
theorem c5_context_dependent_resolution (stack : Stack) (path name nameAttr : String)
    (cs1 cs2 : Stack) (hne : name ≠ "") (hres : Token.isUnresolved name = false)
    (h1 : stack.environment = cs1.environment)
    (h2 : stack.environment ≠ cs2.environment) :
    (Resource.construct stack path { physicalName := some name }).resolveNameAttribute
        nameAttr cs1
      = (Except.ok (some nameAttr),
         Resource.construct stack path { physicalName := some name }) ∧
    (Resource.construct stack path { physicalName := some name }).resolveNameAttribute
        nameAttr cs2
      = (Except.ok (some name),
         Resource.construct stack path { physicalName := some name }) := by
  have hc := construct_concrete_eq stack path { physicalName := some name } name
    rfl hne hres
  rw [hc]
  constructor
  · simp [Resource.resolveNameAttribute, Resource.getResourceNameAttributeProduce,
          Resource.resolvePhysicalNameValue, h1, Except.map]
  · simp [Resource.resolveNameAttribute, Resource.getResourceNameAttributeProduce,
          Resource._enableCrossEnvironment, h2, jsTruthy_some_of_ne hne, Except.map,
          Resource.resolvePhysicalNameValue]

/-- Witness for C5: the explicitly named sample resource resolves its name
attribute to the native attribute under `stackA` (same environment) and to
its explicit physical name under `stackB` (different environment). -/
theorem c5_witness :
    resExplicit.resolveNameAttribute "nativeAttr" stackA
      = (Except.ok (some "nativeAttr"), resExplicit) ∧
    resExplicit.resolveNameAttribute "nativeAttr" stackB
      = (Except.ok (some "fixed"), resExplicit) :=
  c5_context_dependent_resolution stackA "Demo/Res" "fixed" "nativeAttr" stackA stackB
    (by decide) (by decide) rfl (by decide)

/-- Counterexample to C6: the `Resource` constructor has no failure path at
all. Supplying an explicit physical name together with the condition that
would otherwise trigger name generation (a cross-environment reference)
raises no error at construction time or at resolution time: the reference
succeeds and the explicit name is used, generation being skipped. -/
theorem c6_counterexample :
    resExplicit._allowCrossEnvironment = true ∧
    resExplicit._enableCrossEnvironment = (Except.ok (), resExplicit) ∧
    resExplicit.resolveNameAttribute "nativeAttr" stackB
      = (Except.ok (some "fixed"), resExplicit) := by
  decide

/-- C6 (amended): Resource construction never fails; the constructor is
total. A caller cannot supply both an explicit name and the generate-marker
(physicalName is one value), and an explicit concrete name combined with the
generation-triggering condition (a cross-environment reference) is not an
error, at construction or later: the reference succeeds, generation is
skipped, and the explicit name is used. -/
theorem c6_no_construction_conflict (stack : Stack) (path name nameAttr : String)
    (cs : Stack) (hne : name ≠ "") (hres : Token.isUnresolved name = false)
    (henv : stack.environment ≠ cs.environment) :
    (Resource.construct stack path { physicalName := some name })._enableCrossEnvironment
      = (Except.ok (), Resource.construct stack path { physicalName := some name }) ∧
    (Resource.construct stack path { physicalName := some name }).resolveNameAttribute
        nameAttr cs
      = (Except.ok (some name),
         Resource.construct stack path { physicalName := some name }) := by
  have hc := construct_concrete_eq stack path { physicalName := some name } name
    rfl hne hres
  rw [hc]
  constructor
  · simp [Resource._enableCrossEnvironment, jsTruthy_some_of_ne hne]
  · simp [Resource.resolveNameAttribute, Resource.getResourceNameAttributeProduce,
          Resource._enableCrossEnvironment, henv, jsTruthy_some_of_ne hne, Except.map,
          Resource.resolvePhysicalNameValue]

/-- Witness for C6 (amended): a concrete explicitly named resource referenced
from a different environment raises no error anywhere. -/
theorem c6_witness :
    (Resource.construct stackA "Demo2/Res"
        { physicalName := some "fixed2" })._enableCrossEnvironment
      = (Except.ok (), Resource.construct stackA "Demo2/Res"
          { physicalName := some "fixed2" }) ∧
    (Resource.construct stackA "Demo2/Res"
        { physicalName := some "fixed2" }).resolveNameAttribute "nativeAttr" stackB
      = (Except.ok (some "fixed2"),
         Resource.construct stackA "Demo2/Res" { physicalName := some "fixed2" }) :=
  c6_no_construction_conflict stackA "Demo2/Res" "fixed2" "nativeAttr" stackB
    (by decide) (by decide) (by decide)

/-- C7: the environment snapshot is set once at construction (props values
with the owning stack values as defaults) and no later operation modifies
it; `_enableCrossEnvironment` changes no field other than the private
`_physicalName`. -/
theorem c7_environment_frame (stack : Stack) (path : String) (props : ResourceProps)
    (r : Resource) (cs : Stack) (nameAttr arnAttr : String) (c : ArnComponents) :
    (Resource.construct stack path props).env
      = { account := props.account.getD stack.account,
          region := props.region.getD stack.region } ∧
    (r._enableCrossEnvironment).2.env = r.env ∧
    (r._enableCrossEnvironment).2.stack = r.stack ∧
    (r._enableCrossEnvironment).2.nodePath = r.nodePath ∧
    (r._enableCrossEnvironment).2.physicalName = r.physicalName ∧
    (r._enableCrossEnvironment).2._allowCrossEnvironment = r._allowCrossEnvironment ∧
    (r.getResourceNameAttributeProduce nameAttr cs).2.env = r.env ∧
    (r.getResourceArnAttributeResolve arnAttr c cs).2.env = r.env := by
  obtain ⟨hs, hn, he, hpn, ha⟩ := enable_frame r
  refine ⟨?_, he, hs, hn, hpn, ha, ?_, ?_⟩
  · simp only [Resource.construct]
    split
    · rfl
    · split <;> rfl
  · unfold Resource.getResourceNameAttributeProduce
    split
    · exact he
    · rfl
  · unfold Resource.getResourceArnAttributeResolve
    split
    · exact he
    · rfl

/-- Counterexample to C8: constructing with the empty string as physicalName
does set the cross-environment allowance to false, but the physicalName
property becomes the empty string itself, not the string-encoded token for
undefined (which only the no-name construction gets), and the stored private
name is the empty string rather than undefined. -/
theorem c8_counterexample :
    resEmpty.physicalName = PhysicalNameValue.plain "" ∧
    resEmpty.physicalName ≠ PhysicalNameValue.undefinedToken ∧
    resEmpty._physicalName = some "" ∧
    resUnset.physicalName = PhysicalNameValue.undefinedToken ∧
    resUnset._physicalName = none := by
  decide

/-- C8 (amended): constructing with the empty string behaves like the
no-name construction for cross-environment gating (allowance false, any
cross-environment reference fails with the same error), but the physicalName
property becomes the empty string itself; the string-encoded token for
undefined is used only when no name at all is given. -/
theorem c8_empty_name_not_explicit (stack : Stack) (path nameAttr : String) (cs : Stack)
    (henv : stack.environment ≠ cs.environment) :
    (Resource.construct stack path { physicalName := some "" })._allowCrossEnvironment
      = false ∧
    (Resource.construct stack path { physicalName := some "" })._enableCrossEnvironment
      = (Except.error (crossEnvErrorMessage path),
         Resource.construct stack path { physicalName := some "" }) ∧
    (Resource.construct stack path
        { physicalName := some "" }).getResourceNameAttributeProduce nameAttr cs
      = (Except.error (crossEnvErrorMessage path),
         Resource.construct stack path { physicalName := some "" }) ∧
    (Resource.construct stack path { physicalName := some "" }).physicalName
      = PhysicalNameValue.plain "" := by
  have hc : Resource.construct stack path { physicalName := some "" } =
      { stack := stack, nodePath := path,
        env := { account := stack.account, region := stack.region },
        physicalName := PhysicalNameValue.plain "",
        _physicalName := some "", _allowCrossEnvironment := false } := rfl
  rw [hc]
  have he := enable_error_eq
    { stack := stack, nodePath := path,
      env := { account := stack.account, region := stack.region },
      physicalName := PhysicalNameValue.plain "",
      _physicalName := some "", _allowCrossEnvironment := false } rfl
  refine ⟨rfl, he, ?_, rfl⟩
  simp [Resource.getResourceNameAttributeProduce, henv, he, Except.map]

/-- Witness for C8 (amended): the empty-string sample resource has allowance
false and fails a cross-environment reference exactly like the no-name one. -/
theorem c8_witness :
    resEmpty._allowCrossEnvironment = false ∧
    resEmpty._enableCrossEnvironment
      = (Except.error (crossEnvErrorMessage "Demo/Res"), resEmpty) ∧
    resEmpty.getResourceNameAttributeProduce "nativeAttr" stackB
      = (Except.error (crossEnvErrorMessage "Demo/Res"), resEmpty) ∧
    resEmpty.physicalName = PhysicalNameValue.plain "" :=
  c8_empty_name_not_explicit stackA "Demo/Res" "nativeAttr" stackB (by decide)

end AwsCdk
